import Mathlib

/-!
Verification of the `aws-key-rotator` repository: a shallow embedding of
`aws_key_rotator/rotator.py` (and the profile-selection logic of
`aws_key_rotator/cli.py` + `IAMKeyRotator.main`) together with proofs of the
specification's claims about it.

Remote calls made by the rotator (boto3 `create_access_key`,
`update_access_key`, `delete_access_key`) and local credential-file writes are
modelled as an explicit trace of `Event`s, so that temporal claims (call
ordering, call counts) become statements about lists.
-/

namespace AwsKeyRotator

/-- Field name constants from the `constants` module, with the values the
repository's tests exercise (`aws_access_key_id = ...` lines in
`tests/test_aws_key_rotator.py`). -/
def AWS_ACCESS_KEY_ID : String := "aws_access_key_id"

/-- Secret-field name constant, as exercised by the repository's tests. -/
def AWS_SECRET_ACCESS_KEY : String := "aws_secret_access_key"

/-- `AccessKey = namedtuple("AccessKey", "id,status")` (rotator.py line 13);
`status` is the boolean `key["Status"] == constants.ACTIVE`. -/
structure AccessKey where
  id : String
  status : Bool
deriving DecidableEq, Repr, Inhabited

/-- One observable action of a rotation run:
* `createKey` — `iam.create_access_key()` inside `_create_key`;
* `storeWrite id secret` — the credentials-file update inside `_create_key`
  writing the new key id and secret;
* `setStatus keyId active` — `iam.update_access_key(AccessKeyId=keyId, Status=...)`
  inside `_inactivate_key` (the rotator only ever sets `active = false`);
* `deleteKey keyId` — `iam.delete_access_key(AccessKeyId=keyId)` inside
  `_delete_key`. -/
inductive Event where
  | createKey : Event
  | storeWrite (id secret : String) : Event
  | setStatus (keyId : String) (active : Bool) : Event
  | deleteKey (keyId : String) : Event
deriving DecidableEq, Repr

/-- How a call to `rotate_credentials` ends. The source never raises for an
unhandled key state: every classified run falls through to the final
"Credential rotation successful" log, so the embedding of the source always
ends in `success`. `unsupportedKeyState` is the fatal outcome the spec
mandates for zero or more-than-two remote keys. -/
inductive RotationResult where
  | success : RotationResult
  | unsupportedKeyState : RotationResult
deriving DecidableEq, Repr

/-- Embedding of `IAMKeyRotator.rotate_credentials` (rotator.py lines 209-254).

Inputs: `accessKeys` is the list returned by `_get_access_keys` (provider
order); `keyIdInFile` is the id the credentials file holds for this profile,
read in the two-active-keys branch; `newId`/`newSecret` are the values
`create_access_key` returns. Output: the final result together with the trace
of remote mutations and store writes, in program order.

Branch by branch, following the source's `statuses == ...` tests:
* `statuses == [True]`: create, write store, inactivate `access_keys[0]`;
* `statuses in ([True, False], [False, True])`: delete the inactive key,
  create, write store, inactivate the previously active key;
* `statuses == [True, True]`: delete the key *not* matching the file
  (`access_keys[1]` if the file matches `access_keys[0]`, else
  `access_keys[0]`), create, write store, inactivate the other;
* anything else: no branch fires; the function logs success and returns. -/
def rotate_credentials (accessKeys : List AccessKey) (keyIdInFile : String)
    (newId newSecret : String) : RotationResult × List Event :=
  let statuses := accessKeys.map (fun k => k.status)
  if statuses = [true] then
    let oldKey := accessKeys.getD 0 default
    (RotationResult.success,
      [Event.createKey, Event.storeWrite newId newSecret,
       Event.setStatus oldKey.id false])
  else if statuses = [true, false] ∨ statuses = [false, true] then
    let k0 := accessKeys.getD 0 default
    let k1 := accessKeys.getD 1 default
    let currentActive := if k0.status then k0 else k1
    let currentInactive := if k0.status then k1 else k0
    (RotationResult.success,
      [Event.deleteKey currentInactive.id, Event.createKey,
       Event.storeWrite newId newSecret,
       Event.setStatus currentActive.id false])
  else if statuses = [true, true] then
    let k0 := accessKeys.getD 0 default
    let k1 := accessKeys.getD 1 default
    let keyToDelete := if keyIdInFile = k0.id then k1 else k0
    let keyToInactivate := if keyIdInFile = k0.id then k0 else k1
    (RotationResult.success,
      [Event.deleteKey keyToDelete.id, Event.createKey,
       Event.storeWrite newId newSecret,
       Event.setStatus keyToInactivate.id false])
  else
    (RotationResult.success, [])

/-- Is this event the `create_access_key` call? -/
def isCreateEvt : Event → Bool
  | Event.createKey => true
  | _ => false

/-- Is this event an inactivating `update_access_key` call (`setStatus _ false`)? -/
def isInactivateEvt : Event → Bool
  | Event.setStatus _ false => true
  | _ => false

/-- Is this event a `delete_access_key` call? -/
def isDeleteEvt : Event → Bool
  | Event.deleteKey _ => true
  | _ => false

/-- Is this event a credentials-file write of the new pair? -/
def isStoreWriteEvt : Event → Bool
  | Event.storeWrite _ _ => true
  | _ => false

/-- Is this event a remote mutation (anything but the local store write)? -/
def isRemoteMutation (e : Event) : Bool :=
  isCreateEvt e || isInactivateEvt e || isDeleteEvt e

example :
    rotate_credentials [⟨"asdf", true⟩] "asdf" "asdf2" "asdf2" =
      (RotationResult.success,
        [Event.createKey, Event.storeWrite "asdf2" "asdf2",
         Event.setStatus "asdf" false]) := by decide

example :
    rotate_credentials [⟨"asdf", true⟩, ⟨"sdfg", false⟩] "asdf" "asdf2" "asdf2" =
      (RotationResult.success,
        [Event.deleteKey "sdfg", Event.createKey,
         Event.storeWrite "asdf2" "asdf2", Event.setStatus "asdf" false]) := by decide

example :
    rotate_credentials [⟨"asdf", true⟩, ⟨"sdfg", true⟩] "asdf" "asdf2" "asdf2" =
      (RotationResult.success,
        [Event.deleteKey "sdfg", Event.createKey,
         Event.storeWrite "asdf2" "asdf2", Event.setStatus "asdf" false]) := by decide

example : rotate_credentials [] "asdf" "a" "b" = (RotationResult.success, []) := by decide

/-- `True` iff every `createKey` event in the trace happens while the remote
key count (started at `n`, incremented by creations, decremented by
deletions) is strictly below the provider's two-key ceiling. -/
def createsWithinLimit : Nat → List Event → Bool
  | _, [] => true
  | n, Event.createKey :: rest => decide (n < 2) && createsWithinLimit (n + 1) rest
  | n, Event.deleteKey _ :: rest => createsWithinLimit (n - 1) rest
  | n, _ :: rest => createsWithinLimit n rest

/-- Shared shape lemma: every trace `rotate_credentials` can emit is empty,
or `create / storeWrite / inactivate`, or `delete / create / storeWrite /
inactivate`. -/
theorem rotate_trace_shape (keys : List AccessKey) (f n s : String) :
    (rotate_credentials keys f n s).2 = [] ∨
    (∃ old, (rotate_credentials keys f n s).2 =
      [Event.createKey, Event.storeWrite n s, Event.setStatus old false]) ∨
    (∃ d old, (rotate_credentials keys f n s).2 =
      [Event.deleteKey d, Event.createKey, Event.storeWrite n s,
       Event.setStatus old false]) := by
  unfold rotate_credentials
  dsimp only
  split_ifs <;> simp

/-- Shared helper: with zero remote keys or more than two remote keys no
`statuses` pattern of `rotate_credentials` matches, so the function falls
through, emits no event, and returns successfully. -/
theorem rotate_out_of_range (keys : List AccessKey) (f n s : String)
    (h : keys.length = 0 ∨ 2 < keys.length) :
    rotate_credentials keys f n s = (RotationResult.success, []) := by
  have hne1 : ¬ (keys.map fun k => k.status) = [true] := by
    intro he
    have := congrArg List.length he
    simp at this
    omega
  have hne2 : ¬ (keys.map fun k => k.status) = [true, false] := by
    intro he
    have := congrArg List.length he
    simp at this
    omega
  have hne3 : ¬ (keys.map fun k => k.status) = [false, true] := by
    intro he
    have := congrArg List.length he
    simp at this
    omega
  have hne4 : ¬ (keys.map fun k => k.status) = [true, true] := by
    intro he
    have := congrArg List.length he
    simp at this
    omega
  simp [rotate_credentials, hne1, hne2, hne3, hne4]

/-- C1 counterexample: on an empty remote key set, `rotate_credentials`
returns successfully — it does not fail with `UnsupportedKeyState` as the
claim states. -/
theorem c1_counterexample :
    (rotate_credentials [] "asdf" "asdf2" "asdf2").1 = RotationResult.success ∧
    RotationResult.success ≠ RotationResult.unsupportedKeyState := by decide

/-- C1 (amended): for every remote key set with zero keys or more than two
keys, `rotate_credentials` performs no remote mutation and no store write,
but completes silently with success instead of failing with
`UnsupportedKeyState`. -/
theorem c1_unsupported_silent_noop (keys : List AccessKey) (f n s : String)
    (h : keys.length = 0 ∨ 2 < keys.length) :
    rotate_credentials keys f n s = (RotationResult.success, []) :=
  rotate_out_of_range keys f n s h

/-- C1 witness: the amended statement at the concrete empty key set. -/
theorem c1_witness :
    rotate_credentials [] "asdf" "asdf2" "asdf2" = (RotationResult.success, []) :=
  c1_unsupported_silent_noop [] "asdf" "asdf2" "asdf2" (Or.inl rfl)

/-- C2: in every rotation trace, any inactivating `setStatus` call is
preceded by the store write recording the newly created identifier and
secret. -/
theorem c2_store_write_before_inactivate (keys : List AccessKey) (f n s : String)
    (j : Nat) (kid : String)
    (hj : ((rotate_credentials keys f n s).2)[j]? = some (Event.setStatus kid false)) :
    ∃ i, i < j ∧ ((rotate_credentials keys f n s).2)[i]? = some (Event.storeWrite n s) := by
  rcases rotate_trace_shape keys f n s with h | ⟨old, h⟩ | ⟨d, old, h⟩ <;> rw [h] at hj ⊢
  · simp at hj
  · match j, hj with
    | 2, _ => exact ⟨1, by omega, rfl⟩
  · match j, hj with
    | 3, _ => exact ⟨2, by omega, rfl⟩

/-- C2 witness: the single-active-key scenario of the test suite, at the
inactivation's position in the trace. -/
theorem c2_witness :
    ∃ i, i < 2 ∧
      ((rotate_credentials [⟨"asdf", true⟩] "asdf" "asdf2" "asdf2").2)[i]? =
        some (Event.storeWrite "asdf2" "asdf2") :=
  c2_store_write_before_inactivate [⟨"asdf", true⟩] "asdf" "asdf2" "asdf2" 2 "asdf" rfl

/-- C3 counterexample: with three active remote keys (a classified
`Unsupported` state) `rotate_credentials` completes successfully yet makes
zero `createKey` calls — not exactly one as the claim states for every
successful rotation in a classified state. -/
theorem c3_counterexample :
    (rotate_credentials [⟨"a", true⟩, ⟨"b", true⟩, ⟨"c", true⟩] "a" "n" "s").1 =
      RotationResult.success ∧
    ¬ ((rotate_credentials [⟨"a", true⟩, ⟨"b", true⟩, ⟨"c", true⟩] "a" "n" "s").2.countP
        isCreateEvt = 1) := by decide

/-- C3 (amended): in the one-active-key state, exactly one `createKey`, one
inactivating `setStatus` and zero `deleteKey` calls; in the three handled
states with two keys, exactly one of each including one `deleteKey`; in the
`Unsupported` states (zero keys or more than two) the successful fall-through
makes zero calls of any kind. -/
theorem c3_call_counts (keys : List AccessKey) (f n s : String) :
    ((keys.map fun k => k.status) = [true] →
      (rotate_credentials keys f n s).2.countP isCreateEvt = 1 ∧
      (rotate_credentials keys f n s).2.countP isInactivateEvt = 1 ∧
      (rotate_credentials keys f n s).2.countP isDeleteEvt = 0) ∧
    (((keys.map fun k => k.status) = [true, false] ∨
      (keys.map fun k => k.status) = [false, true] ∨
      (keys.map fun k => k.status) = [true, true]) →
      (rotate_credentials keys f n s).2.countP isCreateEvt = 1 ∧
      (rotate_credentials keys f n s).2.countP isInactivateEvt = 1 ∧
      (rotate_credentials keys f n s).2.countP isDeleteEvt = 1) ∧
    (keys.length = 0 ∨ 2 < keys.length →
      (rotate_credentials keys f n s).2.countP isCreateEvt = 0 ∧
      (rotate_credentials keys f n s).2.countP isInactivateEvt = 0 ∧
      (rotate_credentials keys f n s).2.countP isDeleteEvt = 0) := by
  refine ⟨fun h => ?_, fun h => ?_, fun h => ?_⟩
  · simp [rotate_credentials, h, isCreateEvt, isInactivateEvt, isDeleteEvt,
      List.countP_cons]
  · rcases h with h | h | h <;>
      simp [rotate_credentials, h, isCreateEvt, isInactivateEvt, isDeleteEvt,
        List.countP_cons]
  · rw [rotate_out_of_range keys f n s h]
    simp

/-- C3 witness: the amended statement's two-key conjunct at the test suite's
one-active-one-inactive scenario. -/
theorem c3_witness :
    (rotate_credentials [⟨"asdf", true⟩, ⟨"sdfg", false⟩] "asdf" "asdf2" "asdf2").2.countP
      isCreateEvt = 1 ∧
    (rotate_credentials [⟨"asdf", true⟩, ⟨"sdfg", false⟩] "asdf" "asdf2" "asdf2").2.countP
      isInactivateEvt = 1 ∧
    (rotate_credentials [⟨"asdf", true⟩, ⟨"sdfg", false⟩] "asdf" "asdf2" "asdf2").2.countP
      isDeleteEvt = 1 :=
  (c3_call_counts [⟨"asdf", true⟩, ⟨"sdfg", false⟩] "asdf" "asdf2" "asdf2").2.1
    (Or.inl rfl)

/-- C4: in the two-active-keys state (with the provider-guaranteed distinct
key ids), the id passed to `deleteKey` is never the id currently stored in
the credentials file at decision time. -/
theorem c4_deleted_key_not_local (k0 k1 : AccessKey) (f n s : String)
    (h0 : k0.status = true) (h1 : k1.status = true) (hne : k0.id ≠ k1.id)
    (d : String) (hd : Event.deleteKey d ∈ (rotate_credentials [k0, k1] f n s).2) :
    d ≠ f := by
  by_cases hf : f = k0.id
  · simp [rotate_credentials, h0, h1, hf] at hd
    subst hd hf
    exact fun he => hne he.symm
  · simp [rotate_credentials, h0, h1, hf] at hd
    subst hd
    exact fun he => hf he.symm

/-- C4 witness: the spec's scenario — two active keys `asdf` and `sdfg`,
store holds `asdf`; the deleted id `sdfg` differs from the stored id. -/
theorem c4_witness : ("sdfg" : String) ≠ "asdf" :=
  c4_deleted_key_not_local ⟨"asdf", true⟩ ⟨"sdfg", true⟩ "asdf" "n" "s"
    rfl rfl (by decide) "sdfg" (by decide)

/-- C5: a `createKey` call is never made while the remote set still has two
members — starting from the listed key count, every creation in the trace
happens strictly below the two-key ceiling; in each two-key handled state the
trace starts with exactly one `deleteKey` followed by the `createKey`, and in
the one-key state the trace starts directly with `createKey` and contains no
deletion. -/
theorem c5_delete_before_create (keys : List AccessKey) (f n s : String) :
    createsWithinLimit keys.length (rotate_credentials keys f n s).2 = true ∧
    (((keys.map fun k => k.status) = [true, false] ∨
      (keys.map fun k => k.status) = [false, true] ∨
      (keys.map fun k => k.status) = [true, true]) →
      (∃ d, ((rotate_credentials keys f n s).2)[0]? = some (Event.deleteKey d)) ∧
      ((rotate_credentials keys f n s).2)[1]? = some Event.createKey ∧
      (rotate_credentials keys f n s).2.countP isDeleteEvt = 1) ∧
    ((keys.map fun k => k.status) = [true] →
      ((rotate_credentials keys f n s).2)[0]? = some Event.createKey ∧
      (rotate_credentials keys f n s).2.countP isDeleteEvt = 0) := by
  refine ⟨?_, fun h => ?_, fun h => ?_⟩
  · by_cases h1 : (keys.map fun k => k.status) = [true]
    · have hl : keys.length = 1 := by
        have := congrArg List.length h1
        simpa using this
      simp [rotate_credentials, h1, hl, createsWithinLimit]
    · by_cases h2 : (keys.map fun k => k.status) = [true, false] ∨
          (keys.map fun k => k.status) = [false, true]
      · have hl : keys.length = 2 := by
          rcases h2 with h2 | h2 <;>
          · have := congrArg List.length h2
            simpa using this
        simp [rotate_credentials, h1, h2, hl, createsWithinLimit]
      · by_cases h3 : (keys.map fun k => k.status) = [true, true]
        · have hl : keys.length = 2 := by
            have := congrArg List.length h3
            simpa using this
          simp [rotate_credentials, h1, h2, h3, hl, createsWithinLimit]
        · simp [rotate_credentials, h1, h2, h3, createsWithinLimit]
  · rcases h with h | h | h <;>
      simp [rotate_credentials, h, isDeleteEvt, List.countP_cons]
  · simp [rotate_credentials, h, isDeleteEvt, List.countP_cons]

/-- C5 witness: the two-key conjunct at the test suite's
one-active-one-inactive scenario. -/
theorem c5_witness :
    (∃ d, ((rotate_credentials [⟨"asdf", true⟩, ⟨"sdfg", false⟩] "asdf" "asdf2" "asdf2").2)[0]? =
      some (Event.deleteKey d)) ∧
    ((rotate_credentials [⟨"asdf", true⟩, ⟨"sdfg", false⟩] "asdf" "asdf2" "asdf2").2)[1]? =
      some Event.createKey ∧
    (rotate_credentials [⟨"asdf", true⟩, ⟨"sdfg", false⟩] "asdf" "asdf2" "asdf2").2.countP
      isDeleteEvt = 1 :=
  (c5_delete_before_create [⟨"asdf", true⟩, ⟨"sdfg", false⟩] "asdf" "asdf2" "asdf2").2.1
    (Or.inl rfl)

/-- C10: in the two-active-keys state, when the locally stored id matches
neither remote key's id, rotation still succeeds: the first key in the
provider's listed order is deleted and the second is the one inactivated
after the creation and store write. -/
theorem c10_no_local_match (k0 k1 : AccessKey) (f n s : String)
    (h0 : k0.status = true) (h1 : k1.status = true)
    (hm0 : f ≠ k0.id) (hm1 : f ≠ k1.id) :
    rotate_credentials [k0, k1] f n s =
      (RotationResult.success,
       [Event.deleteKey k0.id, Event.createKey, Event.storeWrite n s,
        Event.setStatus k1.id false]) := by
  simp [rotate_credentials, h0, h1, hm0]

/-- C10 witness: stored id `zzzz` matches neither active key `asdf` nor
`sdfg`; the first listed key is deleted, the second inactivated. -/
theorem c10_witness :
    rotate_credentials [⟨"asdf", true⟩, ⟨"sdfg", true⟩] "zzzz" "n" "s" =
      (RotationResult.success,
       [Event.deleteKey "asdf", Event.createKey, Event.storeWrite "n" "s",
        Event.setStatus "sdfg" false]) :=
  c10_no_local_match ⟨"asdf", true⟩ ⟨"sdfg", true⟩ "zzzz" "n" "s"
    rfl rfl (by decide) (by decide)

/-- Outcome of one invocation of the operation wrapped by `retry`
(rotator.py lines 20-45): a return value, a `ClientError` whose error code is
`InvalidClientTokenId` (the retryable "credentials not yet recognized"
class), or a `ClientError` with any other code (re-raised by the source). -/
inductive TryOutcome (α : Type) where
  | success (v : α) : TryOutcome α
  | retryableError : TryOutcome α
  | fatalError (code : String) : TryOutcome α
deriving DecidableEq, Repr

/-- How a full run of the retry loop ends: the wrapped operation's value, a
propagated non-retryable `ClientError`, or `MaximumRetriesExceeded` raised
after the loop exhausts its attempts. -/
inductive RetryResult (α : Type) where
  | ok (v : α) : RetryResult α
  | fatal (code : String) : RetryResult α
  | maximumRetriesExceeded : RetryResult α
deriving DecidableEq, Repr

/-- Observable summary of one run of the loop inside `retry`: its result,
how many times the wrapped operation was invoked, and the sleeps performed
(one entry of `sleep_time` per retryable failure). -/
structure RetryRun (α : Type) where
  result : RetryResult α
  triesMade : Nat
  sleeps : List Nat
deriving DecidableEq, Repr

/-- The `for _ in range(attempts)` loop of `retry`, with `fuel` iterations
remaining and the wrapped (stateful) operation's successive invocations
described by `tries`: `tries k` is the outcome of invocation number `k`. -/
def retryLoop {α : Type} (tries : Nat → TryOutcome α) (sleepTime : Nat) :
    Nat → Nat → RetryRun α
  | 0, _ => ⟨RetryResult.maximumRetriesExceeded, 0, []⟩
  | fuel + 1, k =>
    match tries k with
    | TryOutcome.success v => ⟨RetryResult.ok v, 1, []⟩
    | TryOutcome.fatalError c => ⟨RetryResult.fatal c, 1, []⟩
    | TryOutcome.retryableError =>
      let rest := retryLoop tries sleepTime fuel (k + 1)
      ⟨rest.result, rest.triesMade + 1, sleepTime :: rest.sleeps⟩

/-- Embedding of `retry(attempts, sleep_time)` applied to an operation
(rotator.py lines 20-45). -/
def retry {α : Type} (attempts sleepTime : Nat) (tries : Nat → TryOutcome α) :
    RetryRun α :=
  retryLoop tries sleepTime attempts 0

/-- Shared helper: the retry loop never invokes the operation more often than
it has iterations left. -/
theorem retryLoop_triesMade_le {α : Type} (tries : Nat → TryOutcome α) (st : Nat) :
    ∀ fuel k, (retryLoop tries st fuel k).triesMade ≤ fuel := by
  intro fuel
  induction fuel with
  | zero =>
    intro k
    simp [retryLoop]
  | succ f ih =>
    intro k
    unfold retryLoop
    cases h : tries k with
    | success v => simp
    | fatalError c => simp
    | retryableError => simpa using ih (k + 1)

/-- Shared helper: if the first `m` invocations (from invocation `k`) fail
retryably and invocation `k + m` succeeds within the remaining fuel, the loop
returns that value after `m + 1` tries and `m` sleeps. -/
theorem retryLoop_first_success {α : Type} (tries : Nat → TryOutcome α) (st : Nat) :
    ∀ m fuel k v, m < fuel →
      (∀ j, j < m → tries (k + j) = TryOutcome.retryableError) →
      tries (k + m) = TryOutcome.success v →
      retryLoop tries st fuel k = ⟨RetryResult.ok v, m + 1, List.replicate m st⟩ := by
  intro m
  induction m with
  | zero =>
    intro fuel k v hm hpre hk
    match fuel, hm with
    | f + 1, _ =>
      unfold retryLoop
      rw [show k + 0 = k from rfl] at hk
      rw [hk]
      simp
  | succ m ih =>
    intro fuel k v hm hpre hk
    match fuel, hm with
    | f + 1, hm =>
      have h0 : tries k = TryOutcome.retryableError := by
        simpa using hpre 0 (Nat.succ_pos m)
      unfold retryLoop
      rw [h0]
      have hrest := ih f (k + 1) v (by omega)
        (fun j hj => by
          have hh := hpre (j + 1) (by omega)
          have he : k + (j + 1) = k + 1 + j := by omega
          rwa [he] at hh)
        (by
          have he : k + (m + 1) = k + 1 + m := by omega
          rwa [he] at hk)
      simp [hrest, List.replicate_succ]

/-- Shared helper: if the first `m` invocations (from invocation `k`) fail
retryably and invocation `k + m` raises a non-retryable error within the
remaining fuel, the loop propagates it after `m + 1` tries and `m` sleeps. -/
theorem retryLoop_first_fatal {α : Type} (tries : Nat → TryOutcome α) (st : Nat) :
    ∀ m fuel k c, m < fuel →
      (∀ j, j < m → tries (k + j) = TryOutcome.retryableError) →
      tries (k + m) = TryOutcome.fatalError c →
      retryLoop tries st fuel k = ⟨RetryResult.fatal c, m + 1, List.replicate m st⟩ := by
  intro m
  induction m with
  | zero =>
    intro fuel k c hm hpre hk
    match fuel, hm with
    | f + 1, _ =>
      unfold retryLoop
      rw [show k + 0 = k from rfl] at hk
      rw [hk]
      simp
  | succ m ih =>
    intro fuel k c hm hpre hk
    match fuel, hm with
    | f + 1, hm =>
      have h0 : tries k = TryOutcome.retryableError := by
        simpa using hpre 0 (Nat.succ_pos m)
      unfold retryLoop
      rw [h0]
      have hrest := ih f (k + 1) c (by omega)
        (fun j hj => by
          have hh := hpre (j + 1) (by omega)
          have he : k + (j + 1) = k + 1 + j := by omega
          rwa [he] at hh)
        (by
          have he : k + (m + 1) = k + 1 + m := by omega
          rwa [he] at hk)
      simp [hrest, List.replicate_succ]

/-- Shared helper: if every invocation within the fuel fails retryably the
loop ends in `MaximumRetriesExceeded` after exactly `fuel` tries. -/
theorem retryLoop_exhausted {α : Type} (tries : Nat → TryOutcome α) (st : Nat) :
    ∀ fuel k, (∀ j, j < fuel → tries (k + j) = TryOutcome.retryableError) →
      retryLoop tries st fuel k =
        ⟨RetryResult.maximumRetriesExceeded, fuel, List.replicate fuel st⟩ := by
  intro fuel
  induction fuel with
  | zero =>
    intro k h
    rfl
  | succ f ih =>
    intro k h
    have h0 : tries k = TryOutcome.retryableError := by
      simpa using h 0 (Nat.succ_pos f)
    unfold retryLoop
    rw [h0]
    have hrest := ih (k + 1) (fun j hj => by
      have hh := h (j + 1) (by omega)
      have he : k + (j + 1) = k + 1 + j := by omega
      rwa [he] at hh)
    simp [hrest, List.replicate_succ]

/-- C6: for every wrapped operation and `attempts ≥ 1`, the `retry`
combinator returns the operation's value on its first successful try (after
one sleep per preceding retryable failure), never makes more than `attempts`
tries, propagates a non-retryable error immediately without further tries,
and fails with `MaximumRetriesExceeded` after `attempts` tries when every try
fails retryably. -/
theorem c6_retry_behavior (α : Type) (attempts sleepTime : Nat)
    (tries : Nat → TryOutcome α) (hat : 1 ≤ attempts) :
    (∀ k v, k < attempts →
      (∀ j, j < k → tries j = TryOutcome.retryableError) →
      tries k = TryOutcome.success v →
      retry attempts sleepTime tries =
        ⟨RetryResult.ok v, k + 1, List.replicate k sleepTime⟩) ∧
    (retry attempts sleepTime tries).triesMade ≤ attempts ∧
    (∀ k c, k < attempts →
      (∀ j, j < k → tries j = TryOutcome.retryableError) →
      tries k = TryOutcome.fatalError c →
      retry attempts sleepTime tries =
        ⟨RetryResult.fatal c, k + 1, List.replicate k sleepTime⟩) ∧
    ((∀ j, j < attempts → tries j = TryOutcome.retryableError) →
      retry attempts sleepTime tries =
        ⟨RetryResult.maximumRetriesExceeded, attempts,
         List.replicate attempts sleepTime⟩) := by
  refine ⟨?_, ?_, ?_, ?_⟩
  · intro k v hk hpre hs
    exact retryLoop_first_success tries sleepTime k attempts 0 v hk
      (fun j hj => by simpa using hpre j hj) (by simpa using hs)
  · exact retryLoop_triesMade_le tries sleepTime attempts 0
  · intro k c hk hpre hs
    exact retryLoop_first_fatal tries sleepTime k attempts 0 c hk
      (fun j hj => by simpa using hpre j hj) (by simpa using hs)
  · intro h
    exact retryLoop_exhausted tries sleepTime attempts 0
      (fun j hj => by simpa using h j hj)

/-- C6 witness: two attempts against an operation that always fails
retryably end in `MaximumRetriesExceeded` after two tries and two sleeps. -/
theorem c6_witness :
    retry 2 7 (fun _ => TryOutcome.retryableError (α := Nat)) =
      ⟨RetryResult.maximumRetriesExceeded, 2, List.replicate 2 7⟩ :=
  (c6_retry_behavior Nat 2 7 (fun _ => TryOutcome.retryableError)
    (by decide)).2.2.2 (fun j hj => rfl)

/-- A section of the credentials file: its `key = value` pairs in order. -/
abbrev StoreSection : Type := List (String × String)

/-- The parsed credentials file: sections in file order. `ConfigParser`
rejects duplicate section names, so section names are unique in any store
the source can read; the theorems below are stated so that they do not
depend on uniqueness. -/
abbrev Store : Type := List (String × StoreSection)

/-- Embedding of `IAMKeyRotator._contains_keypair` (rotator.py lines
85-102): indexing the section with each of the two field names raises no
`KeyError`, i.e. both lookups succeed. -/
def contains_keypair (sec : StoreSection) : Bool :=
  (sec.lookup AWS_ACCESS_KEY_ID).isSome && (sec.lookup AWS_SECRET_ACCESS_KEY).isSome

/-- Embedding of `IAMKeyRotator._get_rotatable_profiles` (rotator.py lines
104-119): iterate the section names and keep those whose section contains
the keypair. -/
def get_rotatable_profiles (store : Store) : List String :=
  (store.map Prod.fst).filter fun name =>
    contains_keypair ((store.lookup name).getD [])

/-- Embedding of the include/exclude filtering in `IAMKeyRotator.main`
(rotator.py lines 256-263). `inc`/`exc` are the parsed profile-name sets
(`self.config.include.split(",")` etc.); `none` models an absent — or empty,
hence falsy — CLI value. The source applies the intersection and then the
difference, each only when its value is present. -/
def selectProfiles (discovered : Finset String)
    (inc exc : Option (Finset String)) : Finset String :=
  let afterInclude :=
    match inc with
    | some i => discovered ∩ i
    | none => discovered
  match exc with
  | some e => afterInclude \ e
  | none => afterInclude

/-- The id the credentials file stores for `profile`
(`parser[profile_name][constants.AWS_ACCESS_KEY_ID]`); the `getD` defaults
stand for the `KeyError` paths, which the rotation flow never reaches
because it only rotates rotatable profiles. -/
def storedKeyId (store : Store) (p : String) : String :=
  (((store.lookup p).getD []).lookup AWS_ACCESS_KEY_ID).getD ""

/-- Embedding of `IAMKeyRotator.main` (rotator.py lines 256-265) as the
trace of events it emits, each tagged with the profile it was emitted for:
keep the rotatable profiles that pass the include/exclude filters, then
rotate each kept profile. `listed p` is what the provider lists for profile
`p`; `newKey p` is the pair `create_access_key` returns for it. The source
iterates a Python set built from the rotatable-profile list; iteration order
and de-duplication are irrelevant here because the claims only use trace
membership. -/
def mainTrace (store : Store) (inc exc : Option (Finset String))
    (listed : String → List AccessKey) (newKey : String → String × String) :
    List (String × Event) :=
  ((get_rotatable_profiles store).filter fun p =>
    (match inc with
     | some i => decide (p ∈ i)
     | none => true) &&
    (match exc with
     | some e => decide (p ∉ e)
     | none => true)).flatMap
    fun p => ((rotate_credentials (listed p) (storedKeyId store p)
      (newKey p).1 (newKey p).2).2).map fun e => (p, e)

/-- Shared helper: a lookup in an association list succeeds exactly for the
keys it mentions. -/
theorem lookup_isSome_iff_mem_map_fst (store : Store) (p : String) :
    (store.lookup p).isSome = true ↔ p ∈ store.map Prod.fst := by
  induction store with
  | nil => simp
  | cons head tail ih =>
    by_cases hp : p = head.1
    · subst hp
      simp [List.lookup]
    · simp [List.lookup, beq_false_of_ne hp, hp, ih]

/-- C7: under the CLI's mutual-exclusion precondition, the selected set is
`discovered ∩ include` when `include` is given, `discovered − exclude` when
only `exclude` is given, and `discovered` when neither is. -/
theorem c7_profile_selection (discovered : Finset String)
    (inc exc : Option (Finset String)) (h : inc = none ∨ exc = none) :
    selectProfiles discovered inc exc =
      match inc, exc with
      | some i, _ => discovered ∩ i
      | none, some e => discovered \ e
      | none, none => discovered := by
  rcases inc with _ | i <;> rcases exc with _ | e
  · rfl
  · rfl
  · rfl
  · rcases h with h | h <;> simp at h

/-- C7 witness: the spec's scenario — discovered `{default, nondefault}`
with `include = {default}` selects exactly `{default}`. -/
theorem c7_witness :
    selectProfiles {"default", "nondefault"} (some {"default"}) none =
      ({"default"} : Finset String) := by
  have h := c7_profile_selection {"default", "nondefault"} (some {"default"}) none
    (Or.inr rfl)
  rw [h]
  decide

/-- C8: a profile is in the rotatable set iff its section holds both the
identifier field and the secret field; and a profile outside the rotatable
set contributes no event whatsoever (no `createKey`, `setStatus`,
`deleteKey`, nor store write) to a full `main` run. -/
theorem c8_rotatable_iff_keypair (store : Store) (p : String)
    (inc exc : Option (Finset String)) (listed : String → List AccessKey)
    (newKey : String → String × String) :
    (p ∈ get_rotatable_profiles store ↔
      ∃ sec, store.lookup p = some sec ∧
        (sec.lookup AWS_ACCESS_KEY_ID).isSome = true ∧
        (sec.lookup AWS_SECRET_ACCESS_KEY).isSome = true) ∧
    (p ∉ get_rotatable_profiles store →
      ∀ e, (p, e) ∉ mainTrace store inc exc listed newKey) := by
  constructor
  · unfold get_rotatable_profiles
    rw [List.mem_filter]
    constructor
    · rintro ⟨hmem, hkp⟩
      rcases hs : store.lookup p with _ | sec
      · rw [← lookup_isSome_iff_mem_map_fst] at hmem
        rw [hs] at hmem
        simp at hmem
      · refine ⟨sec, rfl, ?_⟩
        rw [hs] at hkp
        simpa [contains_keypair] using hkp
    · rintro ⟨sec, hs, hid, hsec⟩
      refine ⟨?_, ?_⟩
      · rw [← lookup_isSome_iff_mem_map_fst, hs]
        rfl
      · rw [hs]
        simp [contains_keypair, hid, hsec]
  · intro hnot e hmem
    unfold mainTrace at hmem
    rw [List.mem_flatMap] at hmem
    rcases hmem with ⟨q, hq, hpe⟩
    rw [List.mem_map] at hpe
    rcases hpe with ⟨e', _, he'⟩
    have hqp : q = p := congrArg Prod.fst he'
    subst hqp
    exact hnot (List.mem_filter.mp hq).1

/-- C8 witness: a store whose only section lacks the secret field (the test
suite's malformed-profile scenario) yields no event for that profile. -/
theorem c8_witness :
    ("default", Event.createKey) ∉
      mainTrace [("default", [(AWS_ACCESS_KEY_ID, "asdf"), ("bad", "asdf")])]
        none none (fun _ => [⟨"asdf", true⟩]) (fun _ => ("asdf2", "asdf2")) :=
  (c8_rotatable_iff_keypair
    [("default", [(AWS_ACCESS_KEY_ID, "asdf"), ("bad", "asdf")])]
    "default" none none (fun _ => [⟨"asdf", true⟩])
    (fun _ => ("asdf2", "asdf2"))).2 (by decide) Event.createKey

/-- The on-disk credentials file as `_credentials` encounters it: unopenable
(`open` raises `OSError`), readable but not parseable (`read_string`
raises), or successfully parsed into a store. -/
inductive Disk where
  | unreadable : Disk
  | malformed (raw : String) : Disk
  | parsed (store : Store) : Disk
deriving DecidableEq, Repr

/-- Observable outcome of one `with self._credentials() as parser:` session:
the body's value when it ran, the on-disk state afterwards, and whether the
write-back `open(..., "w")` happened. -/
structure SessionOutcome (α : Type) where
  value : Option α
  disk : Disk
  wroteBack : Bool
deriving DecidableEq, Repr

/-- Embedding of the `_credentials` context manager (rotator.py lines
62-83): open and parse the file, `yield` the parser to the body, then write
the parser back. When opening or parsing raises, the exception propagates
before the `yield`, so the write-back is never reached and the on-disk
content is untouched. -/
def credentialsSession {α : Type} (disk : Disk) (body : Store → Store × α) :
    SessionOutcome α :=
  match disk with
  | Disk.unreadable => ⟨none, Disk.unreadable, false⟩
  | Disk.malformed raw => ⟨none, Disk.malformed raw, false⟩
  | Disk.parsed store =>
    let r := body store
    ⟨some r.2, Disk.parsed r.1, true⟩

/-- C9: a store session writes back only after a successful read — on a
failed open or parse no write occurs and the on-disk content is unchanged,
and conversely any session that wrote back started from a parsed store. -/
theorem c9_no_write_on_read_failure {α : Type} (disk : Disk)
    (body : Store → Store × α) :
    ((disk = Disk.unreadable ∨ ∃ raw, disk = Disk.malformed raw) →
      (credentialsSession disk body).wroteBack = false ∧
      (credentialsSession disk body).disk = disk) ∧
    ((credentialsSession disk body).wroteBack = true →
      ∃ store, disk = Disk.parsed store) := by
  constructor
  · rintro (h | ⟨raw, h⟩) <;> subst h <;> exact ⟨rfl, rfl⟩
  · intro h
    cases disk with
    | unreadable => simp [credentialsSession] at h
    | malformed raw => simp [credentialsSession] at h
    | parsed store => exact ⟨store, rfl⟩

/-- C9 witness: a malformed credentials file is left byte-for-byte as it
was, with no write-back. -/
theorem c9_witness :
    (credentialsSession (Disk.malformed "not an ini") (fun st => (st, 0))).wroteBack
      = false ∧
    (credentialsSession (Disk.malformed "not an ini") (fun st => (st, 0))).disk =
      Disk.malformed "not an ini" :=
  (c9_no_write_on_read_failure (Disk.malformed "not an ini")
    (fun st => (st, 0))).1 (Or.inr ⟨"not an ini", rfl⟩)

end AwsKeyRotator
